import Mathlib

/-!
Shallow embedding of the SQL-to-document-store adapter (`adapter.py`):
the clause scan, projection builder, WHERE-clause filter translator,
document-store cursor pipeline, and the dual-backend benchmark join,
together with proofs of the specified properties.

Tokens are represented by their literal text (`String`); the non-whitespace
filtering performed by the tokenizer has already happened when a
`List String` of tokens is consumed, matching `_parse_tokens`.

The Python string primitives the adapter relies on (`upper`, `strip`,
`split`, `replace`, `join`, membership) are modelled structurally over
`List Char` so that every definition evaluates by kernel reduction.
-/

namespace Adapter

/-! ### Python string primitives -/

/-- Python `s.upper()` (the adapter only feeds it ASCII keywords). -/
def pyUpper (s : String) : String :=
  String.mk (s.data.map Char.toUpper)

/-- Strip leading and trailing characters satisfying `p` from a character list. -/
def stripChars (p : Char → Bool) (cs : List Char) : List Char :=
  ((cs.dropWhile p).reverse.dropWhile p).reverse

/-- Python `s.strip()`: remove surrounding whitespace. -/
def pyTrim (s : String) : String :=
  String.mk (stripChars Char.isWhitespace s.data)

/-- Python `s.strip(c)` for a one-character argument: remove every leading
and trailing occurrence of `c`. -/
def pyStripChar (s : String) (c : Char) : String :=
  String.mk (stripChars (fun x => x = c) s.data)

/-- Worker for whitespace splitting: `acc` holds the current word reversed. -/
def splitWsGo : List Char → List Char → List String
  | [], acc => if acc = [] then [] else [String.mk acc.reverse]
  | c :: rest, acc =>
    if c.isWhitespace then
      (if acc = [] then [] else [String.mk acc.reverse]) ++ splitWsGo rest []
    else
      splitWsGo rest (c :: acc)

/-- Python `s.split()` with no separator: split on whitespace runs, dropping
empty pieces. -/
def pySplit (s : String) : List String :=
  splitWsGo s.data []

/-- Worker for separator splitting, fuelled by the input length so that the
recursion is structural. -/
def splitOnGo (sep : List Char) : Nat → List Char → List Char → List (List Char)
  | _, [], acc => [acc.reverse]
  | 0, cs, acc => [acc.reverse ++ cs]
  | fuel + 1, c :: rest, acc =>
    if sep.isPrefixOf (c :: rest) then
      acc.reverse :: splitOnGo sep fuel ((c :: rest).drop sep.length) []
    else
      splitOnGo sep fuel rest (c :: acc)

/-- Python `s.split(sep)` for a non-empty separator: split on every
non-overlapping occurrence of `sep`, keeping empty pieces (an empty
separator, which Python rejects, returns the string whole). -/
def pySplitOn (s sep : String) : List String :=
  if sep.data = [] then [s]
  else (splitOnGo sep.data s.data.length s.data []).map String.mk

/-- Worker for replacement, fuelled by the input length so that the
recursion is structural. -/
def replaceGo (pat rep : List Char) : Nat → List Char → List Char
  | _, [] => []
  | 0, cs => cs
  | fuel + 1, c :: rest =>
    if pat.isPrefixOf (c :: rest) then
      rep ++ replaceGo pat rep fuel ((c :: rest).drop pat.length)
    else
      c :: replaceGo pat rep fuel rest

/-- Python `s.replace(pat, rep)` for a non-empty pattern (the adapter only
removes parenthesis characters). -/
def pyReplace (s pat rep : String) : String :=
  if pat.data = [] then s
  else String.mk (replaceGo pat.data rep.data s.data.length s.data)

/-- Python `sep.join(parts)`. -/
def pyJoin (sep : String) (parts : List String) : String :=
  String.mk (((parts.map String.data).intersperse sep.data).flatten)

/-- Python `c in s` for a single character. -/
def pyContains (s : String) (c : Char) : Bool :=
  s.data.contains c

/-- Digit run to a natural number, base 10. -/
def digitsToNat (cs : List Char) : Nat :=
  cs.foldl (fun a c => a * 10 + (c.toNat - 48)) 0

/-- Python `int(s)`: optional surrounding whitespace, optional sign, then a
non-empty digit run; `None` on anything else (underscore separators are not
modelled). Mirrors the `int(...)` calls whose `ValueError` the adapter catches. -/
def pyInt (s : String) : Option Int :=
  match stripChars Char.isWhitespace s.data with
  | [] => none
  | c :: rest =>
    let (sign, digits) : Int × List Char :=
      if c = '-' then (-1, rest) else if c = '+' then (1, rest) else (1, c :: rest)
    if digits ≠ [] ∧ digits.all Char.isDigit then
      some (sign * (digitsToNat digits : Int))
    else
      none

/-- Mantissa of a Python float literal: digits with at most one dot and at
least one digit overall, as an exact rational. -/
def pyFloatMantissa (cs : List Char) : Option Rat :=
  let (ip, dotRest) := cs.span (fun c => c ≠ '.')
  match dotRest with
  | [] =>
    if ip ≠ [] ∧ ip.all Char.isDigit then some (digitsToNat ip : Rat) else none
  | _ :: fp =>
    if (ip ≠ [] ∨ fp ≠ []) ∧ ip.all Char.isDigit ∧ fp.all Char.isDigit
        ∧ fp.all (fun c => c ≠ '.') then
      some ((digitsToNat ip * 10 ^ fp.length + digitsToNat fp : Rat) / (10 ^ fp.length : Rat))
    else
      none

/-- Exponent part of a Python float literal (the characters after `e`/`E`). -/
def pyFloatExp (cs : List Char) : Option Int :=
  match cs with
  | [] => none
  | c :: rest =>
    let (sign, digits) : Int × List Char :=
      if c = '-' then (-1, rest) else if c = '+' then (1, rest) else (1, c :: rest)
    if digits ≠ [] ∧ digits.all Char.isDigit then
      some (sign * (digitsToNat digits : Int))
    else
      none

/-- Python `float(s)`: optional surrounding whitespace, optional sign,
decimal mantissa, optional exponent; the result is kept as an exact rational
(`inf`/`nan` and underscore separators are not modelled). Mirrors the
`float(...)` call whose `ValueError` the adapter catches. -/
def pyFloat (s : String) : Option Rat :=
  match stripChars Char.isWhitespace s.data with
  | [] => none
  | c :: rest =>
    let (sign, body) : Rat × List Char :=
      if c = '-' then (-1, rest) else if c = '+' then (1, rest) else (1, c :: rest)
    let (mant, expRest) := body.span (fun c => c ≠ 'e' ∧ c ≠ 'E')
    match pyFloatMantissa mant with
    | none => none
    | some m =>
      match expRest with
      | [] => some (sign * m)
      | _ :: ecs =>
        match pyFloatExp ecs with
        | none => none
        | some e => some (sign * m * (10 : Rat) ^ e)

/-! ### Data model -/

/-- Values a WHERE condition can carry after coercion: Python `int`,
Python `float` (represented exactly as a rational, since the adapter only
builds and forwards these values and never does float arithmetic), or the
original string. -/
inductive SqlValue where
  | int : Int → SqlValue
  | float : Rat → SqlValue
  | str : String → SqlValue
deriving DecidableEq, Repr

/-- A value stored in a filter document: either a scalar (equality match)
or a one-key operator document such as `\x7b"$gt": v\x7d`. -/
inductive MongoVal where
  | scalar (v : SqlValue)
  | opDoc (op : String) (v : SqlValue)
deriving DecidableEq, Repr

/-- A filter document: insertion-ordered string-keyed mapping, as a Python dict. -/
abbrev FilterDoc := List (String × MongoVal)

/-- A projection document: insertion-ordered mapping from field name to 1/0. -/
abbrev ProjDoc := List (String × Nat)

/-- A stored document: flat field-to-value record. -/
abbrev Doc := List (String × SqlValue)

/-- Python dict assignment `d[k] = v`: overwrites in place when the key is
present (keeping its position), otherwise appends at the end. -/
def dictInsert (d : List (String × α)) (k : String) (v : α) : List (String × α) :=
  if d.any (fun kv => kv.1 = k) then
    d.map (fun kv => if kv.1 = k then (k, v) else kv)
  else
    d ++ [(k, v)]

/-! ### The keyword scan -/

/-- State accumulated by the keyword scan in `_execute_select_mongo`
(lines 94-117 of adapter.py). -/
structure ScanResult where
  select_idx : Option Nat := none
  from_idx : Option Nat := none
  where_idx : Option Nat := none
  limit_val : Option Int := none
  offset_val : Option Int := none
deriving DecidableEq, Repr

/-- One iteration of the keyword scan loop: `next?` is `tokens[i+1]` when it
exists. The `try int(tokens[i+1]) except (IndexError, ValueError): pass`
pattern is `next?.bind pyInt`, with `none` leaving the state unchanged. -/
def scanStep (i : Nat) (t : String) (next? : Option String) (st : ScanResult) : ScanResult :=
  let val := pyUpper t
  if val = "SELECT" then { st with select_idx := some i }
  else if val = "FROM" then { st with from_idx := some i }
  else if val = "WHERE" then { st with where_idx := some i }
  else if val = "LIMIT" then
    match next?.bind pyInt with
    | some v => { st with limit_val := some v }
    | none => st
  else if val = "OFFSET" then
    match next?.bind pyInt with
    | some v => { st with offset_val := some v }
    | none => st
  else st

/-- The keyword scan loop `for i, t in enumerate(tokens)`. -/
def scanGo (i : Nat) (st : ScanResult) : List String → ScanResult
  | [] => st
  | t :: rest => scanGo (i + 1) (scanStep i t rest.head? st) rest

/-- Keyword scan over the whole token list, starting from the empty state. -/
def scanTokens (ts : List String) : ScanResult :=
  scanGo 0 {} ts

/-! ### Filter translation and projection building -/

/-- Coercion of a WHERE value string (lines 168-178 of adapter.py): if it
contains a dot attempt a float parse, otherwise an integer parse; retain the
string when the parse fails. -/
def coerceValue (val : String) : SqlValue :=
  let cast_val : Option SqlValue :=
    if pyContains val '.' then (pyFloat val).map SqlValue.float
    else (pyInt val).map SqlValue.int
  match cast_val with
  | some v => v
  | none => .str val

/-- Body of the per-condition loop in `_parse_where_clause` (lines 161-184):
split the condition on whitespace, skip it when fewer than three parts,
strip quotes from the value, coerce, and map `=`, `>`, `<`; any other
operator leaves the filter document unchanged. -/
def processCond (filter_doc : FilterDoc) (cond : String) : FilterDoc :=
  match pySplit cond with
  | field :: op :: v :: vrest =>
    let val := pyJoin " " (v :: vrest)
    let val := pyStripChar (pyStripChar val '\'') '"'
    let final_val := coerceValue val
    if op = "=" then dictInsert filter_doc field (.scalar final_val)
    else if op = ">" then dictInsert filter_doc field (.opDoc "$gt" final_val)
    else if op = "<" then dictInsert filter_doc field (.opDoc "$lt" final_val)
    else filter_doc
  | _ => filter_doc

/-- `_parse_where_clause` (lines 156-185): join the token texts with single
spaces, split on the literal substring `AND`, trim each condition, and fold
the condition loop over the empty filter document. -/
def parseWhereClause (tokens : List String) : FilterDoc :=
  let where_str := pyJoin " " tokens
  let conditions := (pySplitOn where_str "AND").map pyTrim
  conditions.foldl processCond []

/-- `_build_projection` (lines 145-154): `None` or a trimmed `*` yields only
the `_id` suppression; otherwise strip parentheses, split on commas, trim,
drop parts equal (case-insensitively) to `SELECT`, include the rest, and
always suppress `_id`. -/
def buildProjection (fields_token : Option String) : ProjDoc :=
  match fields_token with
  | none => [("_id", 0)]
  | some ft =>
    if pyTrim ft = "*" then [("_id", 0)]
    else
      let raw_cols := pyReplace (pyReplace ft "(" "") ")" ""
      let parts := (pySplitOn raw_cols ",").map pyTrim
      let parts := parts.filter (fun p => pyUpper p ≠ "SELECT")
      let proj := parts.foldl (fun d col => dictInsert d col 1) []
      dictInsert proj "_id" 0

/-! ### Translation of a SELECT statement -/

/-- The find call assembled by `_execute_select_mongo` before it touches the
store: collection name, filter, projection, and the optional bounds. -/
structure FindCall where
  collection : String
  filter_doc : FilterDoc
  projection : ProjDoc
  offset_val : Option Int
  limit_val : Option Int
deriving DecidableEq, Repr

/-- Translation phase of `_execute_select_mongo` (lines 89-135): scan for
keywords, fail when `FROM` is absent, read the field-list token after
`SELECT` (an uncaught `IndexError` when `SELECT` is the final token), fail
when no token follows `FROM`, then build projection and filter. -/
def translateSelect (ts : List String) : Except String FindCall :=
  let scan := scanTokens ts
  match scan.from_idx with
  | none => .error "No 'FROM' clause found"
  | some from_idx =>
    let fieldsRes : Except String (Option String) :=
      match scan.select_idx with
      | none => .ok none
      | some select_idx =>
        match ts[select_idx + 1]? with
        | some t => .ok (some t)
        | none => .error "IndexError: list index out of range"
    match fieldsRes with
    | .error e => .error e
    | .ok fields_token =>
      match ts[from_idx + 1]? with
      | none => .error "No collection specified"
      | some table_token =>
        let collection_name := pyTrim table_token
        let projection := buildProjection fields_token
        let filter_doc : FilterDoc :=
          match scan.where_idx with
          | none => []
          | some where_idx => parseWhereClause (ts.drop (where_idx + 1))
        .ok ⟨collection_name, filter_doc, projection, scan.offset_val, scan.limit_val⟩

/-! ### The document-store executor -/

/-- Numeric view of a value, when it has one. -/
def toRat? : SqlValue → Option Rat
  | .int n => some (n : Rat)
  | .float q => some q
  | .str _ => none

/-- Modelled from the spec: the document store's comparison order used by
`$gt`/`$lt` (§6 dependency interface, glossary). Numbers compare
numerically, strings lexicographically; values of incomparable kinds satisfy
neither inequality. The store itself is external to the repository. -/
def mongoLt (a b : SqlValue) : Bool :=
  match toRat? a, toRat? b with
  | some x, some y => decide (x < y)
  | _, _ =>
    match a, b with
    | .str s, .str t => compare s t = Ordering.lt
    | _, _ => false

/-- Modelled from the spec: the document store's equality match (§6).
Numbers compare numerically, everything else by literal equality. -/
def mongoEqVal (a b : SqlValue) : Bool :=
  match toRat? a, toRat? b with
  | some x, some y => decide (x = y)
  | _, _ => a = b

/-- Modelled from the spec: whether a document satisfies one filter entry
(§3 FilterSpec: a scalar equality or a one-key operator mapping). A missing
field satisfies nothing. -/
def matchesCond (doc : Doc) : String × MongoVal → Bool
  | (field, mv) =>
    match (doc.find? (fun kv => kv.1 = field)).map Prod.snd with
    | none => false
    | some v =>
      match mv with
      | .scalar w => mongoEqVal v w
      | .opDoc op w =>
        if op = "$gt" then mongoLt w v
        else if op = "$lt" then mongoLt v w
        else false

/-- Modelled from the spec: conjunction of all filter entries (§3 FilterSpec
invariant: every top-level entry is implicitly AND-ed). -/
def matchesFilter (filter_doc : FilterDoc) (doc : Doc) : Bool :=
  filter_doc.all (matchesCond doc)

/-- Modelled from the spec: the document store's projection semantics (§6,
glossary). With no field included, the entries with flag 0 are excluded and
everything else kept; with at least one non-`_id` inclusion, only the
included fields survive, plus `_id` unless suppressed. -/
def applyProjection (proj : ProjDoc) (doc : Doc) : Doc :=
  let included := (proj.filter (fun p => p.1 ≠ "_id" ∧ p.2 ≠ 0)).map Prod.fst
  if included.isEmpty then
    doc.filter (fun kv => ¬ proj.any (fun p => p.1 = kv.1 ∧ p.2 = 0))
  else
    doc.filter (fun kv =>
      included.contains kv.1 ∨
        (kv.1 = "_id" ∧ ¬ proj.any (fun p => p.1 = "_id" ∧ p.2 = 0)))

/-- Modelled from the spec: `cursor.skip(n)` (§6 dependency interface). -/
def cursorSkip (n : Int) (docs : List Doc) : List Doc :=
  docs.drop n.toNat

/-- Modelled from the spec: `cursor.limit(n)` (§6 dependency interface). -/
def cursorLimit (n : Int) (docs : List Doc) : List Doc :=
  docs.take n.toNat

/-- Execution phase of `_execute_select_mongo` (lines 137-143): find with
filter and projection, then `skip` when an offset was parsed, then `limit`
when a limit was parsed, then materialize. The store is a pure map from
collection name to its documents. -/
def runFind (db : String → List Doc) (fc : FindCall) : List Doc :=
  let docs := ((db fc.collection).filter (matchesFilter fc.filter_doc)).map
    (applyProjection fc.projection)
  let docs := match fc.offset_val with
    | some m => cursorSkip m docs
    | none => docs
  match fc.limit_val with
  | some n => cursorLimit n docs
  | none => docs

/-- `_execute_select_mongo` (lines 89-143) on an already tokenized query:
translate, then execute against the store. -/
def executeSelectMongo (db : String → List Doc) (ts : List String) : Except String (List Doc) :=
  (translateSelect ts).map (runFind db)

/-! ### Tokenizer and orchestrator -/

/-- Modelled from the spec: the Tokenizer (§4.1) is implemented by the
external `sqlparse` library, which is not part of this repository's sources.
Per §4.1 it yields the statement's lexemes in source order with whitespace
tokens dropped, and per §3 the field list following `SELECT` forms a single
token; for the single-statement shapes in scope (§1) this is splitting on
whitespace runs. -/
def tokenize (sql : String) : List String :=
  splitWsGo sql.data []

/-- `_parse_tokens` (lines 79-87): fail with the empty-query error when no
non-whitespace token remains. -/
def parseTokens (sql : String) : Except String (List String) :=
  let tokens := tokenize sql
  if tokens = [] then .error "Invalid SQL query (no tokens)." else .ok tokens

/-- The jsonify payload assembled by the `/speedtest` route (lines 274-280),
with the timing values abstract. -/
structure BenchmarkResult (τ : Type) where
  total_parallel_time : τ
  mongo_in_the_middle_time : τ
  mongo_in_the_middle_count : Nat
  native_postgres_time : τ
  native_postgres_count : Nat
deriving DecidableEq, Repr

/-- Benchmark join of the `/speedtest` route (lines 262-280): both backend
futures are dispatched, then gathered in order — the document-store outcome
first, the relational outcome second; a raised error in either gather aborts
the whole request, so a result is only built from two successes. -/
def speedtest (mongoOutcome : Except ε (List ρ × τ)) (pgOutcome : Except ε (List ρ' × τ))
    (totalTime : τ) : Except ε (BenchmarkResult τ) := do
  let (mongo_results, mongo_time) ← mongoOutcome
  let (pg_results, pg_time) ← pgOutcome
  pure ⟨totalTime, mongo_time, mongo_results.length, pg_time, pg_results.length⟩

/-! ### Spec-side descriptions of what the scan records -/

/-- Index of the last occurrence of keyword `kw` (case-insensitive) in the
token list, counting from `i`: a later occurrence takes priority over any
earlier one. -/
def lastOccAux (kw : String) : Nat → List String → Option Nat
  | _, [] => none
  | i, t :: rest =>
    match lastOccAux kw (i + 1) rest with
    | some j => some j
    | none => if pyUpper t = kw then some i else none

/-- Index of the last case-insensitive occurrence of `kw` in `ts`. -/
def lastOccurrenceIdx (ts : List String) (kw : String) : Option Nat :=
  lastOccAux kw 0 ts

/-- Integer recorded for a bound keyword (`LIMIT`/`OFFSET`): the parsed
value of the token following the last occurrence of `kw` whose following
token parses as an integer. -/
def lastBoundVal (kw : String) : List String → Option Int
  | [] => none
  | t :: rest =>
    match lastBoundVal kw rest with
    | some v => some v
    | none => if pyUpper t = kw then rest.head?.bind pyInt else none

/-- A store with no documents in any collection, for concrete instantiations. -/
def emptyDb : String → List Doc := fun _ => []

/-- A store whose every collection holds twenty documents numbered 0 to 19,
for concrete instantiations. -/
def sampleDb : String → List Doc :=
  fun _ => (List.range 20).map (fun k => [("n", SqlValue.int k)])

/-! ### Helper lemmas about the keyword scan -/

theorem scanStep_select_idx (i : Nat) (t : String) (n : Option String) (st : ScanResult) :
    (scanStep i t n st).select_idx =
      if pyUpper t = "SELECT" then some i else st.select_idx := by
  simp only [scanStep]
  split_ifs <;> first
    | rfl
    | (cases n.bind pyInt <;> rfl)
    | simp_all

theorem scanStep_from_idx (i : Nat) (t : String) (n : Option String) (st : ScanResult) :
    (scanStep i t n st).from_idx =
      if pyUpper t = "FROM" then some i else st.from_idx := by
  simp only [scanStep]
  split_ifs <;> first
    | rfl
    | (cases n.bind pyInt <;> rfl)
    | simp_all

theorem scanStep_where_idx (i : Nat) (t : String) (n : Option String) (st : ScanResult) :
    (scanStep i t n st).where_idx =
      if pyUpper t = "WHERE" then some i else st.where_idx := by
  simp only [scanStep]
  split_ifs <;> first
    | rfl
    | (cases n.bind pyInt <;> rfl)
    | simp_all

theorem scanStep_limit_val (i : Nat) (t : String) (n : Option String) (st : ScanResult) :
    (scanStep i t n st).limit_val =
      if pyUpper t = "LIMIT" then
        match n.bind pyInt with
        | some v => some v
        | none => st.limit_val
      else st.limit_val := by
  simp only [scanStep]
  split_ifs <;> first
    | rfl
    | (cases n.bind pyInt <;> rfl)
    | simp_all

theorem scanStep_offset_val (i : Nat) (t : String) (n : Option String) (st : ScanResult) :
    (scanStep i t n st).offset_val =
      if pyUpper t = "OFFSET" then
        match n.bind pyInt with
        | some v => some v
        | none => st.offset_val
      else st.offset_val := by
  simp only [scanStep]
  split_ifs <;> first
    | rfl
    | (cases n.bind pyInt <;> rfl)
    | simp_all

theorem scanGo_select_idx (ts : List String) : ∀ (i : Nat) (st : ScanResult),
    (scanGo i st ts).select_idx =
      match lastOccAux "SELECT" i ts with
      | some j => some j
      | none => st.select_idx := by
  induction ts with
  | nil => intro i st; rfl
  | cons t rest ih =>
    intro i st
    rw [scanGo, ih, lastOccAux]
    cases h : lastOccAux "SELECT" (i + 1) rest with
    | some j => rfl
    | none =>
      rw [scanStep_select_idx]
      by_cases ht : pyUpper t = "SELECT" <;> simp [ht]

theorem scanGo_from_idx (ts : List String) : ∀ (i : Nat) (st : ScanResult),
    (scanGo i st ts).from_idx =
      match lastOccAux "FROM" i ts with
      | some j => some j
      | none => st.from_idx := by
  induction ts with
  | nil => intro i st; rfl
  | cons t rest ih =>
    intro i st
    rw [scanGo, ih, lastOccAux]
    cases h : lastOccAux "FROM" (i + 1) rest with
    | some j => rfl
    | none =>
      rw [scanStep_from_idx]
      by_cases ht : pyUpper t = "FROM" <;> simp [ht]

theorem scanGo_where_idx (ts : List String) : ∀ (i : Nat) (st : ScanResult),
    (scanGo i st ts).where_idx =
      match lastOccAux "WHERE" i ts with
      | some j => some j
      | none => st.where_idx := by
  induction ts with
  | nil => intro i st; rfl
  | cons t rest ih =>
    intro i st
    rw [scanGo, ih, lastOccAux]
    cases h : lastOccAux "WHERE" (i + 1) rest with
    | some j => rfl
    | none =>
      rw [scanStep_where_idx]
      by_cases ht : pyUpper t = "WHERE" <;> simp [ht]

theorem scanGo_limit_val (ts : List String) : ∀ (i : Nat) (st : ScanResult),
    (scanGo i st ts).limit_val =
      match lastBoundVal "LIMIT" ts with
      | some v => some v
      | none => st.limit_val := by
  induction ts with
  | nil => intro i st; rfl
  | cons t rest ih =>
    intro i st
    rw [scanGo, ih, lastBoundVal]
    cases h : lastBoundVal "LIMIT" rest with
    | some v => rfl
    | none =>
      rw [scanStep_limit_val]
      by_cases ht : pyUpper t = "LIMIT"
      · simp only [ht, if_true]
        all_goals cases rest.head?.bind pyInt <;> rfl
      · simp [ht]

theorem scanGo_offset_val (ts : List String) : ∀ (i : Nat) (st : ScanResult),
    (scanGo i st ts).offset_val =
      match lastBoundVal "OFFSET" ts with
      | some v => some v
      | none => st.offset_val := by
  induction ts with
  | nil => intro i st; rfl
  | cons t rest ih =>
    intro i st
    rw [scanGo, ih, lastBoundVal]
    cases h : lastBoundVal "OFFSET" rest with
    | some v => rfl
    | none =>
      rw [scanStep_offset_val]
      by_cases ht : pyUpper t = "OFFSET"
      · simp only [ht, if_true]
        all_goals cases rest.head?.bind pyInt <;> rfl
      · simp [ht]

theorem scanTokens_select_idx (ts : List String) :
    (scanTokens ts).select_idx = lastOccurrenceIdx ts "SELECT" := by
  rw [scanTokens, scanGo_select_idx, lastOccurrenceIdx]
  cases lastOccAux "SELECT" 0 ts <;> rfl

theorem scanTokens_from_idx (ts : List String) :
    (scanTokens ts).from_idx = lastOccurrenceIdx ts "FROM" := by
  rw [scanTokens, scanGo_from_idx, lastOccurrenceIdx]
  cases lastOccAux "FROM" 0 ts <;> rfl

theorem scanTokens_where_idx (ts : List String) :
    (scanTokens ts).where_idx = lastOccurrenceIdx ts "WHERE" := by
  rw [scanTokens, scanGo_where_idx, lastOccurrenceIdx]
  cases lastOccAux "WHERE" 0 ts <;> rfl

theorem scanTokens_limit_val (ts : List String) :
    (scanTokens ts).limit_val = lastBoundVal "LIMIT" ts := by
  rw [scanTokens, scanGo_limit_val]
  cases lastBoundVal "LIMIT" ts <;> rfl

theorem scanTokens_offset_val (ts : List String) :
    (scanTokens ts).offset_val = lastBoundVal "OFFSET" ts := by
  rw [scanTokens, scanGo_offset_val]
  cases lastBoundVal "OFFSET" ts <;> rfl

theorem lastOccAux_eq_none (kw : String) (ts : List String)
    (h : ∀ t ∈ ts, pyUpper t ≠ kw) : ∀ i, lastOccAux kw i ts = none := by
  induction ts with
  | nil => intro i; rfl
  | cons t rest ih =>
    intro i
    rw [lastOccAux, ih (fun t ht => h t (List.mem_cons_of_mem _ ht))]
    simp [h t (List.mem_cons_self t rest)]

theorem lastOccAux_append_last (kw : String) (t : String) (ht : pyUpper t = kw)
    (l : List String) : ∀ i, lastOccAux kw i (l ++ [t]) = some (i + l.length) := by
  induction l with
  | nil => intro i; simp [lastOccAux, ht]
  | cons a l ih =>
    intro i
    rw [List.cons_append, lastOccAux, ih (i + 1)]
    simp
    omega

theorem lastOccAux_some (kw : String) (ts : List String) : ∀ (i j : Nat),
    lastOccAux kw i ts = some j →
      i ≤ j ∧ j - i < ts.length ∧
        ∃ t, ts[j - i]? = some t ∧ pyUpper t = kw := by
  induction ts with
  | nil => intro i j h; exact absurd h (by simp [lastOccAux])
  | cons t rest ih =>
    intro i j h
    rw [lastOccAux] at h
    cases hr : lastOccAux kw (i + 1) rest with
    | some j' =>
      rw [hr] at h
      cases h
      obtain ⟨h1, h2, t', h3, h4⟩ := ih (i + 1) j hr
      refine ⟨by omega, by simp; omega, t', ?_, h4⟩
      have hji : j - i = (j - (i + 1)) + 1 := by omega
      rw [hji, List.getElem?_cons_succ]
      exact h3
    | none =>
      rw [hr] at h
      by_cases ht : pyUpper t = kw
      · rw [if_pos ht] at h
        cases h
        exact ⟨le_refl _, by simp, t, by simp, ht⟩
      · rw [if_neg ht] at h
        exact absurd h (by simp)

/-! ### Claim theorems -/

/-- C1: translating `SELECT a,b FROM t WHERE age > 30 AND name = 'x'`
produces the filter `\x7b"age": \x7b"$gt": 30\x7d, "name": "x"\x7d` and a
projection including exactly `a` and `b` plus the `_id` suppression. -/
theorem c1_select_where_translation :
    translateSelect (tokenize "SELECT a,b FROM t WHERE age > 30 AND name = 'x'") =
      .ok ⟨"t",
        [("age", .opDoc "$gt" (.int 30)), ("name", .scalar (.str "x"))],
        [("a", 1), ("b", 1), ("_id", 0)],
        none, none⟩ := by
  rfl

/-- C2 counterexample: the clause scan does not record the index of a
keyword's first occurrence. On `["FROM", "x", "from", "y"]` the first
(case-insensitive) occurrence of `FROM` is at index 0, yet the scan records
index 2; and a later `LIMIT` occurrence overrides an earlier one. -/
theorem c2_counterexample :
    (["FROM", "x", "from", "y"].findIdx? (fun t => pyUpper t = "FROM")) = some 0 ∧
    (scanTokens ["FROM", "x", "from", "y"]).from_idx = some 2 ∧
    (scanTokens ["LIMIT", "5", "LIMIT", "7"]).limit_val = some 7 := by
  decide

/-- C2 (amended): for every non-whitespace token sequence, the Clause
Locator records, for each of SELECT, FROM, WHERE, the index of that
keyword's last case-insensitive occurrence (each occurrence overwrites the
previous, so later occurrences — e.g. inside a string literal value — are
still not distinguished from real keywords), and for LIMIT and OFFSET the
integer parsed from the token following the last occurrence whose following
token parses as an integer. -/
theorem c2_scan_records_last_occurrence (ts : List String) :
    (scanTokens ts).select_idx = lastOccurrenceIdx ts "SELECT" ∧
    (scanTokens ts).from_idx = lastOccurrenceIdx ts "FROM" ∧
    (scanTokens ts).where_idx = lastOccurrenceIdx ts "WHERE" ∧
    (scanTokens ts).limit_val = lastBoundVal "LIMIT" ts ∧
    (scanTokens ts).offset_val = lastBoundVal "OFFSET" ts :=
  ⟨scanTokens_select_idx ts, scanTokens_from_idx ts, scanTokens_where_idx ts,
    scanTokens_limit_val ts, scanTokens_offset_val ts⟩

/-- C4: when no token of the sequence is the keyword `FROM`
(case-insensitively), translation fails with the missing-FROM error,
independently of the store — so before any store is contacted. -/
theorem c4_missing_from_fails (db : String → List Doc) (ts : List String)
    (h : ∀ t ∈ ts, pyUpper t ≠ "FROM") :
    translateSelect ts = .error "No 'FROM' clause found" ∧
    executeSelectMongo db ts = .error "No 'FROM' clause found" := by
  have hf : (scanTokens ts).from_idx = none := by
    rw [scanTokens_from_idx, lastOccurrenceIdx, lastOccAux_eq_none "FROM" ts h 0]
  have ht : translateSelect ts = .error "No 'FROM' clause found" := by
    simp only [translateSelect, hf]
  exact ⟨ht, by rw [executeSelectMongo, ht]; rfl⟩

/-- C4 witness at the concrete token sequence `["SELECT", "*"]`. -/
theorem c4_missing_from_fails_witness :
    translateSelect ["SELECT", "*"] = .error "No 'FROM' clause found" ∧
    executeSelectMongo emptyDb ["SELECT", "*"] = .error "No 'FROM' clause found" :=
  c4_missing_from_fails emptyDb ["SELECT", "*"] (by decide)

/-- C5: a WHERE condition whose operator token is not `=`, `>` or `<`
leaves the filter document unchanged — no entry is added and no error is
raised (the translator is a total function). -/
theorem c5_unsupported_operator_ignored (acc : FilterDoc) (cond : String)
    (field op v : String) (vs : List String)
    (hsplit : pySplit cond = field :: op :: v :: vs)
    (h1 : op ≠ "=") (h2 : op ≠ ">") (h3 : op ≠ "<") :
    processCond acc cond = acc := by
  unfold processCond
  rw [hsplit]
  simp [h1, h2, h3]

/-- C5 witness at the concrete condition `age != 30`. -/
theorem c5_unsupported_operator_ignored_witness :
    processCond [("name", .scalar (.str "x"))] "age != 30" = [("name", .scalar (.str "x"))] :=
  c5_unsupported_operator_ignored [("name", .scalar (.str "x"))] "age != 30"
    "age" "!=" "30" [] (by decide) (by decide) (by decide) (by decide)

/-- C6: value coercion — a value containing a dot goes through the float
parse, any other value through the integer parse, and a failed parse keeps
the original string; in particular `42` becomes the integer 42, `3.14` the
float 3.14, while `abc` and `1.2.3` stay strings. -/
theorem c6_value_coercion :
    coerceValue "42" = .int 42 ∧
    coerceValue "3.14" = .float (3.14 : Rat) ∧
    coerceValue "abc" = .str "abc" ∧
    coerceValue "1.2.3" = .str "1.2.3" ∧
    (∀ s q, pyContains s '.' = true → pyFloat s = some q → coerceValue s = .float q) ∧
    (∀ s, pyContains s '.' = true → pyFloat s = none → coerceValue s = .str s) ∧
    (∀ s n, pyContains s '.' = false → pyInt s = some n → coerceValue s = .int n) ∧
    (∀ s, pyContains s '.' = false → pyInt s = none → coerceValue s = .str s) := by
  have h314 : coerceValue "3.14" = .float (3.14 : Rat) := by
    simp +decide [coerceValue, pyContains, pyFloat, pyFloatMantissa, stripChars, digitsToNat,
      List.dropWhile_cons, List.takeWhile_cons]
    norm_num
  refine ⟨by decide, h314, by decide, by decide, ?_, ?_, ?_, ?_⟩
  · intro s q hc hp; simp [coerceValue, hc, hp]
  · intro s hc hp; simp [coerceValue, hc, hp]
  · intro s n hc hp; simp [coerceValue, hc, hp]
  · intro s hc hp; simp [coerceValue, hc, hp]

/-- C6 witness: the general branch statements applied at fresh inputs. -/
theorem c6_value_coercion_witness :
    coerceValue "9.5" = .float (9.5 : Rat) ∧
    coerceValue "9.x" = .str "9.x" ∧
    coerceValue "77" = .int 77 ∧
    coerceValue "seven" = .str "seven" :=
  ⟨c6_value_coercion.2.2.2.2.1 "9.5" (9.5 : Rat) (by decide)
      (by simp +decide [pyFloat, pyFloatMantissa, stripChars, digitsToNat,
            List.dropWhile_cons, List.takeWhile_cons]
          norm_num),
    c6_value_coercion.2.2.2.2.2.1 "9.x" (by decide) (by decide),
    c6_value_coercion.2.2.2.2.2.2.1 "77" 77 (by decide) (by decide),
    c6_value_coercion.2.2.2.2.2.2.2 "seven" (by decide) (by decide)⟩

/-- An error coming out of the translation phase is one of the three
clause-location errors. -/
theorem translateSelect_error_mem (ts : List String) (e : String)
    (h : translateSelect ts = .error e) :
    e = "No 'FROM' clause found" ∨ e = "No collection specified" ∨
      e = "IndexError: list index out of range" := by
  rcases hf : (scanTokens ts).from_idx with _ | fi
  · simp [translateSelect, hf] at h
    exact .inl h.symm
  · rcases hs : (scanTokens ts).select_idx with _ | si
    · rcases htab : ts[fi + 1]? with _ | tt
      · simp [translateSelect, hf, hs, htab] at h
        exact .inr (.inl h.symm)
      · simp [translateSelect, hf, hs, htab] at h
    · rcases hfl : ts[si + 1]? with _ | ft
      · simp [translateSelect, hf, hs, hfl] at h
        exact .inr (.inr h.symm)
      · rcases htab : ts[fi + 1]? with _ | tt
        · simp [translateSelect, hf, hs, hfl, htab] at h
          exact .inr (.inl h.symm)
        · simp [translateSelect, hf, hs, hfl, htab] at h

/-- C8 counterexample: errors other than the empty-query and missing-FROM
errors escape clause handling — `["SELECT", "FROM"]` fails with the
no-collection error and `["FROM", "t", "SELECT"]` with an uncaught index
error, while the projection builder and filter translator stay total. -/
theorem c8_counterexample :
    executeSelectMongo emptyDb ["SELECT", "FROM"] = .error "No collection specified" ∧
    executeSelectMongo emptyDb ["FROM", "t", "SELECT"] =
      .error "IndexError: list index out of range" := by
  exact ⟨rfl, rfl⟩

/-- C8 (amended): the Projection Builder and the Filter Translator are
total functions of their token input, and the only failures that escape
clause handling are the missing-FROM error, the no-collection error (`FROM`
with no following token), and an index error (`SELECT` as the final token);
any other input yields a find call. -/
theorem c8_translator_error_set (db : String → List Doc) (ts : List String) :
    (∃ r, executeSelectMongo db ts = .ok r) ∨
    executeSelectMongo db ts = .error "No 'FROM' clause found" ∨
    executeSelectMongo db ts = .error "No collection specified" ∨
    executeSelectMongo db ts = .error "IndexError: list index out of range" := by
  cases hx : translateSelect ts with
  | ok fc => exact .inl ⟨runFind db fc, by rw [executeSelectMongo, hx]; rfl⟩
  | error e =>
    have hex : executeSelectMongo db ts = .error e := by rw [executeSelectMongo, hx]; rfl
    rcases translateSelect_error_mem ts e hx with rfl | rfl | rfl
    · exact .inr (.inl hex)
    · exact .inr (.inr (.inl hex))
    · exact .inr (.inr (.inr hex))

/-- C9: the benchmark orchestrator fails as a whole when either backend
fails. A document-store error propagates as the first error observed; when
the document store succeeds and the relational backend fails, the
relational error propagates and the completed document-store outcome is
discarded — no partial result is ever returned. -/
theorem c9_orchestrator_no_partial_result {ε ρ ρ' τ : Type}
    (m : Except ε (List ρ × τ)) (p : Except ε (List ρ' × τ)) (t : τ) :
    (∀ e, m = .error e → speedtest m p t = .error e) ∧
    (∀ res e, m = .ok res → p = .error e → speedtest m p t = .error e) := by
  constructor
  · intro e he
    subst he
    rfl
  · intro res e hm hp
    subst hm
    subst hp
    cases res
    rfl

/-- C9 witness: a relational failure discards a completed document-store
outcome, and a document-store failure propagates directly. -/
theorem c9_orchestrator_no_partial_result_witness :
    speedtest (Except.error "mongo down" : Except String (List Nat × Nat))
      (Except.ok ([0], 1)) 2 = .error "mongo down" ∧
    speedtest (Except.ok ([0, 1], 3) : Except String (List Nat × Nat))
      (Except.error "pg down" : Except String (List Nat × Nat)) 3 = .error "pg down" :=
  ⟨(c9_orchestrator_no_partial_result _ _ _).1 "mongo down" rfl,
    (c9_orchestrator_no_partial_result _ _ _).2 ([0, 1], 3) "pg down" rfl rfl⟩

/-- C3: a `SELECT * FROM t` token sequence — and likewise one with no
field-list token at all, which happens exactly when no `SELECT` keyword is
found — translates to the projection containing only the `_id` exclusion
and the empty filter mapping; and the concrete input string
`SELECT * FROM t` tokenizes to that token shape. -/
theorem c3_star_projection_empty_filter (c : String)
    (hc : pyUpper c ∉ ["SELECT", "FROM", "WHERE", "LIMIT", "OFFSET"]) :
    translateSelect ["SELECT", "*", "FROM", c] =
      .ok ⟨pyTrim c, [], [("_id", 0)], none, none⟩ ∧
    translateSelect ["FROM", c] =
      .ok ⟨pyTrim c, [], [("_id", 0)], none, none⟩ ∧
    tokenize "SELECT * FROM t" = ["SELECT", "*", "FROM", "t"] := by
  obtain ⟨h1, h2, h3, h4, h5⟩ :
      pyUpper c ≠ "SELECT" ∧ pyUpper c ≠ "FROM" ∧ pyUpper c ≠ "WHERE" ∧
        pyUpper c ≠ "LIMIT" ∧ pyUpper c ≠ "OFFSET" := by
    simpa using hc
  refine ⟨?_, ?_, by decide⟩
  · have hsel : (scanTokens ["SELECT", "*", "FROM", c]).select_idx = some 0 := by
      rw [scanTokens_select_idx]
      simp +decide [lastOccurrenceIdx, lastOccAux, h1]
    have hfrom : (scanTokens ["SELECT", "*", "FROM", c]).from_idx = some 2 := by
      rw [scanTokens_from_idx]
      simp +decide [lastOccurrenceIdx, lastOccAux, h2]
    have hwhere : (scanTokens ["SELECT", "*", "FROM", c]).where_idx = none := by
      rw [scanTokens_where_idx]
      simp +decide [lastOccurrenceIdx, lastOccAux, h3]
    have hlim : (scanTokens ["SELECT", "*", "FROM", c]).limit_val = none := by
      rw [scanTokens_limit_val]
      simp +decide [lastBoundVal, h4]
    have hoff : (scanTokens ["SELECT", "*", "FROM", c]).offset_val = none := by
      rw [scanTokens_offset_val]
      simp +decide [lastBoundVal, h5]
    simp +decide [translateSelect, hsel, hfrom, hwhere, hlim, hoff, buildProjection]
  · have hsel : (scanTokens ["FROM", c]).select_idx = none := by
      rw [scanTokens_select_idx]
      simp +decide [lastOccurrenceIdx, lastOccAux, h1]
    have hfrom : (scanTokens ["FROM", c]).from_idx = some 0 := by
      rw [scanTokens_from_idx]
      simp +decide [lastOccurrenceIdx, lastOccAux, h2]
    have hwhere : (scanTokens ["FROM", c]).where_idx = none := by
      rw [scanTokens_where_idx]
      simp +decide [lastOccurrenceIdx, lastOccAux, h3]
    have hlim : (scanTokens ["FROM", c]).limit_val = none := by
      rw [scanTokens_limit_val]
      simp +decide [lastBoundVal, h4]
    have hoff : (scanTokens ["FROM", c]).offset_val = none := by
      rw [scanTokens_offset_val]
      simp +decide [lastBoundVal, h5]
    simp +decide [translateSelect, hsel, hfrom, hwhere, hlim, hoff, buildProjection]

/-- C3 witness at the collection name `t`. -/
theorem c3_star_projection_empty_filter_witness :
    translateSelect ["SELECT", "*", "FROM", "t"] =
      .ok ⟨"t", [], [("_id", 0)], none, none⟩ ∧
    translateSelect ["FROM", "t"] =
      .ok ⟨"t", [], [("_id", 0)], none, none⟩ := by
  have h := c3_star_projection_empty_filter "t" (by decide)
  exact ⟨by rw [h.1]; rfl, by rw [h.2.1]; rfl⟩

/-- C7: for every execution in which both a limit `n` and an offset `m`
were parsed — whatever the collection, the filter and the projection — the
executor applies skip before limit: the result is the matching records with
the first `m` dropped and then at most `n` taken; when only one of the two
bounds is set, only that one is applied, and with neither bound, none. In
particular `LIMIT 10 OFFSET 5` parses to limit 10 and offset 5, skips
exactly the first 5 matching records and returns at most 10. -/
theorem c7_skip_before_limit (db : String → List Doc) (coll : String)
    (filter_doc : FilterDoc) (proj : ProjDoc) (n m : Int) (c : String)
    (hc : pyUpper c ∉ ["SELECT", "FROM", "WHERE", "LIMIT", "OFFSET"]) :
    runFind db ⟨coll, filter_doc, proj, some m, some n⟩ =
      ((((db coll).filter (matchesFilter filter_doc)).map
        (applyProjection proj)).drop m.toNat).take n.toNat ∧
    runFind db ⟨coll, filter_doc, proj, none, some n⟩ =
      (((db coll).filter (matchesFilter filter_doc)).map
        (applyProjection proj)).take n.toNat ∧
    runFind db ⟨coll, filter_doc, proj, some m, none⟩ =
      (((db coll).filter (matchesFilter filter_doc)).map
        (applyProjection proj)).drop m.toNat ∧
    runFind db ⟨coll, filter_doc, proj, none, none⟩ =
      ((db coll).filter (matchesFilter filter_doc)).map (applyProjection proj) ∧
    (runFind db ⟨coll, filter_doc, proj, some m, some n⟩).length ≤ n.toNat ∧
    translateSelect ["SELECT", "*", "FROM", c, "LIMIT", "10", "OFFSET", "5"] =
      .ok ⟨pyTrim c, [], [("_id", 0)], some 5, some 10⟩ ∧
    executeSelectMongo db ["SELECT", "*", "FROM", c, "LIMIT", "10", "OFFSET", "5"] =
      .ok (((((db (pyTrim c)).filter (matchesFilter [])).map
        (applyProjection [("_id", 0)])).drop 5).take 10) ∧
    executeSelectMongo db ["SELECT", "*", "FROM", c, "LIMIT", "10"] =
      .ok ((((db (pyTrim c)).filter (matchesFilter [])).map
        (applyProjection [("_id", 0)])).take 10) ∧
    executeSelectMongo db ["SELECT", "*", "FROM", c, "OFFSET", "5"] =
      .ok ((((db (pyTrim c)).filter (matchesFilter [])).map
        (applyProjection [("_id", 0)])).drop 5) ∧
    (∀ r, executeSelectMongo db ["SELECT", "*", "FROM", c, "LIMIT", "10", "OFFSET", "5"]
        = .ok r → r.length ≤ 10) := by
  obtain ⟨h1, h2, h3, h4, h5⟩ :
      pyUpper c ≠ "SELECT" ∧ pyUpper c ≠ "FROM" ∧ pyUpper c ≠ "WHERE" ∧
        pyUpper c ≠ "LIMIT" ∧ pyUpper c ≠ "OFFSET" := by
    simpa using hc
  have htr1 : translateSelect ["SELECT", "*", "FROM", c, "LIMIT", "10", "OFFSET", "5"] =
      .ok ⟨pyTrim c, [], [("_id", 0)], some 5, some 10⟩ := by
    have hsel : (scanTokens ["SELECT", "*", "FROM", c, "LIMIT", "10", "OFFSET", "5"]).select_idx
        = some 0 := by
      rw [scanTokens_select_idx]
      simp +decide [lastOccurrenceIdx, lastOccAux, h1]
    have hfrom : (scanTokens ["SELECT", "*", "FROM", c, "LIMIT", "10", "OFFSET", "5"]).from_idx
        = some 2 := by
      rw [scanTokens_from_idx]
      simp +decide [lastOccurrenceIdx, lastOccAux, h2]
    have hwhere : (scanTokens ["SELECT", "*", "FROM", c, "LIMIT", "10", "OFFSET", "5"]).where_idx
        = none := by
      rw [scanTokens_where_idx]
      simp +decide [lastOccurrenceIdx, lastOccAux, h3]
    have hlim : (scanTokens ["SELECT", "*", "FROM", c, "LIMIT", "10", "OFFSET", "5"]).limit_val
        = some 10 := by
      rw [scanTokens_limit_val]
      simp +decide [lastBoundVal, h4]
    have hoff : (scanTokens ["SELECT", "*", "FROM", c, "LIMIT", "10", "OFFSET", "5"]).offset_val
        = some 5 := by
      rw [scanTokens_offset_val]
      simp +decide [lastBoundVal, h5]
    simp +decide [translateSelect, hsel, hfrom, hwhere, hlim, hoff, buildProjection]
  have htr2 : translateSelect ["SELECT", "*", "FROM", c, "LIMIT", "10"] =
      .ok ⟨pyTrim c, [], [("_id", 0)], none, some 10⟩ := by
    have hsel : (scanTokens ["SELECT", "*", "FROM", c, "LIMIT", "10"]).select_idx = some 0 := by
      rw [scanTokens_select_idx]
      simp +decide [lastOccurrenceIdx, lastOccAux, h1]
    have hfrom : (scanTokens ["SELECT", "*", "FROM", c, "LIMIT", "10"]).from_idx = some 2 := by
      rw [scanTokens_from_idx]
      simp +decide [lastOccurrenceIdx, lastOccAux, h2]
    have hwhere : (scanTokens ["SELECT", "*", "FROM", c, "LIMIT", "10"]).where_idx = none := by
      rw [scanTokens_where_idx]
      simp +decide [lastOccurrenceIdx, lastOccAux, h3]
    have hlim : (scanTokens ["SELECT", "*", "FROM", c, "LIMIT", "10"]).limit_val = some 10 := by
      rw [scanTokens_limit_val]
      simp +decide [lastBoundVal, h4]
    have hoff : (scanTokens ["SELECT", "*", "FROM", c, "LIMIT", "10"]).offset_val = none := by
      rw [scanTokens_offset_val]
      simp +decide [lastBoundVal, h5]
    simp +decide [translateSelect, hsel, hfrom, hwhere, hlim, hoff, buildProjection]
  have htr3 : translateSelect ["SELECT", "*", "FROM", c, "OFFSET", "5"] =
      .ok ⟨pyTrim c, [], [("_id", 0)], some 5, none⟩ := by
    have hsel : (scanTokens ["SELECT", "*", "FROM", c, "OFFSET", "5"]).select_idx = some 0 := by
      rw [scanTokens_select_idx]
      simp +decide [lastOccurrenceIdx, lastOccAux, h1]
    have hfrom : (scanTokens ["SELECT", "*", "FROM", c, "OFFSET", "5"]).from_idx = some 2 := by
      rw [scanTokens_from_idx]
      simp +decide [lastOccurrenceIdx, lastOccAux, h2]
    have hwhere : (scanTokens ["SELECT", "*", "FROM", c, "OFFSET", "5"]).where_idx = none := by
      rw [scanTokens_where_idx]
      simp +decide [lastOccurrenceIdx, lastOccAux, h3]
    have hlim : (scanTokens ["SELECT", "*", "FROM", c, "OFFSET", "5"]).limit_val = none := by
      rw [scanTokens_limit_val]
      simp +decide [lastBoundVal, h4]
    have hoff : (scanTokens ["SELECT", "*", "FROM", c, "OFFSET", "5"]).offset_val = some 5 := by
      rw [scanTokens_offset_val]
      simp +decide [lastBoundVal, h5]
    simp +decide [translateSelect, hsel, hfrom, hwhere, hlim, hoff, buildProjection]
  have he1 : executeSelectMongo db ["SELECT", "*", "FROM", c, "LIMIT", "10", "OFFSET", "5"] =
      .ok (((((db (pyTrim c)).filter (matchesFilter [])).map
        (applyProjection [("_id", 0)])).drop 5).take 10) := by
    rw [executeSelectMongo, htr1]
    rfl
  refine ⟨rfl, rfl, rfl, rfl, List.length_take_le _ _, htr1, he1, ?_, ?_, ?_⟩
  · rw [executeSelectMongo, htr2]
    rfl
  · rw [executeSelectMongo, htr3]
    rfl
  · intro r hr
    rw [he1] at hr
    cases hr
    exact List.length_take_le 10 _

/-- C7 witness: the general skip-before-limit equation instantiated at
limit 3 and offset 2 on a twenty-document collection, and the end-to-end
`LIMIT 10 OFFSET 5` query returning exactly documents 5 through 14. -/
theorem c7_skip_before_limit_witness :
    runFind sampleDb ⟨"users", [], [("_id", 0)], some 2, some 3⟩ =
      ((((sampleDb "users").filter (matchesFilter [])).map
        (applyProjection [("_id", 0)])).drop 2).take 3 ∧
    executeSelectMongo sampleDb ["SELECT", "*", "FROM", "users", "LIMIT", "10", "OFFSET", "5"] =
      .ok ((List.range 20).map (fun k => [("n", SqlValue.int k)]) |>.drop 5 |>.take 10) := by
  have h := c7_skip_before_limit sampleDb "users" [] [("_id", 0)] 3 2 "users" (by decide)
  refine ⟨h.1, ?_⟩
  rw [h.2.2.2.2.2.2.1]
  rfl

/-- C10: when the last token of the sequence is the keyword `FROM`, the
FROM check passes but no token follows it, so translation fails with the
no-collection error — an error outside the spec's taxonomy — independently
of the store, hence before the document store is queried. -/
theorem c10_from_last_token_no_collection (db : String → List Doc) (ts : List String)
    (h : ts ≠ []) (hlast : pyUpper (ts.getLast h) = "FROM") :
    translateSelect ts = .error "No collection specified" ∧
    executeSelectMongo db ts = .error "No collection specified" := by
  have hsplit : ts.dropLast ++ [ts.getLast h] = ts := List.dropLast_append_getLast h
  have hlen1 : 1 ≤ ts.length := by
    cases ts with
    | nil => exact absurd rfl h
    | cons a l => simp
  have hfrom : (scanTokens ts).from_idx = some (ts.length - 1) := by
    rw [scanTokens_from_idx, lastOccurrenceIdx]
    conv =>
      lhs
      rw [← hsplit]
    rw [lastOccAux_append_last "FROM" _ hlast _ 0]
    simp [List.length_dropLast]
  have htab : ts[(ts.length - 1) + 1]? = none := by
    apply List.getElem?_eq_none
    omega
  have hgetlast : ts[ts.length - 1]? = some (ts.getLast h) := by
    rw [List.getLast_eq_getElem]
    exact List.getElem?_eq_getElem (by omega)
  rcases hs : (scanTokens ts).select_idx with _ | si
  · have ht : translateSelect ts = .error "No collection specified" := by
      simp [translateSelect, hfrom, hs, htab]
    exact ⟨ht, by rw [executeSelectMongo, ht]; rfl⟩
  · have hocc : lastOccAux "SELECT" 0 ts = some si := by
      have := scanTokens_select_idx ts
      rw [hs] at this
      exact this.symm
    obtain ⟨-, hlt, t', ht', hup⟩ := lastOccAux_some "SELECT" ts 0 si hocc
    simp only [Nat.sub_zero] at hlt ht'
    have hne : si ≠ ts.length - 1 := by
      intro hEq
      rw [hEq, hgetlast] at ht'
      have ht'' : t' = ts.getLast h := (Option.some.inj ht').symm
      rw [ht'', hlast] at hup
      exact absurd hup (by decide)
    obtain ⟨ft, hfl⟩ : ∃ ft, ts[si + 1]? = some ft := by
      rw [List.getElem?_eq_getElem (show si + 1 < ts.length by omega)]
      exact ⟨_, rfl⟩
    have ht : translateSelect ts = .error "No collection specified" := by
      simp [translateSelect, hfrom, hs, hfl, htab]
    exact ⟨ht, by rw [executeSelectMongo, ht]; rfl⟩

/-- C10 witness at the concrete token sequence `["SELECT", "*", "FROM"]`. -/
theorem c10_from_last_token_no_collection_witness :
    translateSelect ["SELECT", "*", "FROM"] = .error "No collection specified" ∧
    executeSelectMongo emptyDb ["SELECT", "*", "FROM"] = .error "No collection specified" :=
  c10_from_last_token_no_collection emptyDb ["SELECT", "*", "FROM"] (by decide) (by decide)

end Adapter
